import Mathlib

/-!
Verification of the content-addressable storage manager
(`src/services/storage-manager`): `storeContent`, `retrieveContent`,
`generateContentHash` and the `storeReadme` / `storeAnalysisResults` /
`storeLogOutput` wrappers, embedded shallowly.

Bytes are `List Nat` (each entry a byte value). The SHA-256 digest the code
obtains from `crypto.createHash('sha256')` is implemented here in full
(FIPS 180-4) so digests of concrete payloads evaluate. The Google Cloud
Storage backend is external to the repository; it is modelled from the spec
as an idealized blob backend (bucket set plus an object map with atomic
per-object writes) with explicit fault injection for the error claims.
-/

namespace SHA256

/-- Truncate to a 32-bit word. -/
def mask (x : Nat) : Nat := x % 4294967296

/-- Rotate a 32-bit word right by `n` bits. -/
def rotr (n x : Nat) : Nat := mask ((x >>> n) ||| (x <<< (32 - n)))

/-- Σ0 of FIPS 180-4. -/
def bigSigma0 (x : Nat) : Nat := (rotr 2 x) ^^^ (rotr 13 x) ^^^ (rotr 22 x)

/-- Σ1 of FIPS 180-4. -/
def bigSigma1 (x : Nat) : Nat := (rotr 6 x) ^^^ (rotr 11 x) ^^^ (rotr 25 x)

/-- σ0 of FIPS 180-4. -/
def smallSigma0 (x : Nat) : Nat := (rotr 7 x) ^^^ (rotr 18 x) ^^^ (x >>> 3)

/-- σ1 of FIPS 180-4. -/
def smallSigma1 (x : Nat) : Nat := (rotr 17 x) ^^^ (rotr 19 x) ^^^ (x >>> 10)

/-- Ch(x, y, z); bitwise not within 32 bits is xor with `0xffffffff`. -/
def ch (x y z : Nat) : Nat := (x &&& y) ^^^ ((x ^^^ 4294967295) &&& z)

/-- Maj(x, y, z). -/
def maj (x y z : Nat) : Nat := (x &&& y) ^^^ (x &&& z) ^^^ (y &&& z)

/-- The 64 round constants of FIPS 180-4 §4.2.2, written in decimal. -/
def K : List Nat :=
  [1116352408, 1899447441, 3049323471, 3921009573, 961987163,
   1508970993, 2453635748, 2870763221, 3624381080, 310598401,
   607225278, 1426881987, 1925078388, 2162078206, 2614888103,
   3248222580, 3835390401, 4022224774, 264347078, 604807628,
   770255983, 1249150122, 1555081692, 1996064986, 2554220882,
   2821834349, 2952996808, 3210313671, 3336571891, 3584528711,
   113926993, 338241895, 666307205, 773529912, 1294757372,
   1396182291, 1695183700, 1986661051, 2177026350, 2456956037,
   2730485921, 2820302411, 3259730800, 3345764771, 3516065817,
   3600352804, 4094571909, 275423344, 430227734, 506948616,
   659060556, 883997877, 958139571, 1322822218, 1537002063,
   1747873779, 1955562222, 2024104815, 2227730452, 2361852424,
   2428436474, 2756734187, 3204031479, 3329325298]

/-- The initial hash value H⁽⁰⁾ of FIPS 180-4 §5.3.3, in decimal. -/
def H0 : List Nat :=
  [1779033703, 3144134277, 1013904242, 2773480762,
   1359893119, 2600822924, 528734635, 1541459225]

/-- `n` as `k` bytes, big-endian. -/
def toBytesBE (k n : Nat) : List Nat :=
  (List.range k).map (fun i => (n >>> (8 * (k - 1 - i))) % 256)

/-- Pad a byte message: append `0x80`, zero bytes to 56 mod 64, then the
bit length as 8 big-endian bytes. The zero count is `-(length + 9) mod 64`,
computed as `(119 - length mod 64) mod 64` so the subtraction never
truncates (`length mod 64` is at most 63). -/
def padMessage (msg : List Nat) : List Nat :=
  let padZeros := (119 - msg.length % 64) % 64
  msg ++ [0x80] ++ List.replicate padZeros 0 ++ toBytesBE 8 (msg.length * 8)

/-- Take 64-byte blocks off the front, `fuel` of them at most. -/
def chunks64Fuel : Nat → List Nat → List (List Nat)
  | 0, _ => []
  | f + 1, l =>
    match l with
    | [] => []
    | a :: rest => ((a :: rest).take 64) :: chunks64Fuel f ((a :: rest).drop 64)

/-- Split a byte list into 64-byte blocks. -/
def chunks64 (l : List Nat) : List (List Nat) := chunks64Fuel l.length l

/-- Four big-endian bytes as one 32-bit word. -/
def bytesToWord (bs : List Nat) : Nat := bs.foldl (fun acc b => acc * 256 + b) 0

/-- The 16 words of one 64-byte block. -/
def blockWords (block : List Nat) : List Nat :=
  (List.range 16).map (fun i => bytesToWord ((block.drop (4 * i)).take 4))

/-- Extend the message schedule by `fuel` words. -/
def extendW (w : List Nat) (fuel : Nat) : List Nat :=
  match fuel with
  | 0 => w
  | f + 1 =>
    let n := w.length
    let nw := mask (smallSigma1 (w.getD (n - 2) 0) + w.getD (n - 7) 0 +
                    smallSigma0 (w.getD (n - 15) 0) + w.getD (n - 16) 0)
    extendW (w ++ [nw]) f

/-- The 64 rounds of the compression function, from schedule `w` and state
`[a, b, c, d, e, f, g, h]`. -/
def compressLoop (w : List Nat) (hs : List Nat) : List Nat :=
  (List.range 64).foldl (fun st i =>
    match st with
    | [a, b, c, d, e, f, g, h] =>
      let t1 := mask (h + bigSigma1 e + ch e f g + K.getD i 0 + w.getD i 0)
      let t2 := mask (bigSigma0 a + maj a b c)
      [mask (t1 + t2), a, b, c, mask (d + t1), e, f, g]
    | other => other) hs

/-- Process one padded block: compress and add into the running hash. -/
def processBlock (hs block : List Nat) : List Nat :=
  let w := extendW (blockWords block) 48
  List.zipWith (fun x y => mask (x + y)) hs (compressLoop w hs)

/-- SHA-256 digest of a byte message, as 32 bytes. -/
def sha256 (msg : List Nat) : List Nat :=
  let hFinal := (chunks64 (padMessage msg)).foldl processBlock H0
  hFinal.foldr (fun wd acc => toBytesBE 4 wd ++ acc) []

/-- A hex digit character, lowercase as `Buffer`/`digest('hex')` emit it. -/
def hexDigitChar (n : Nat) : Char :=
  if n < 10 then Char.ofNat (48 + n) else Char.ofNat (87 + n)

/-- One byte as two lowercase hex characters. -/
def byteToHex (b : Nat) : String :=
  String.mk [hexDigitChar (b / 16), hexDigitChar (b % 16)]

/-- A byte list as a lowercase hex string. -/
def bytesToHex (bs : List Nat) : String := String.join (bs.map byteToHex)

/-- SHA-256 digest of a byte message as a lowercase hex string: the value of
`crypto.createHash('sha256').update(msg).digest('hex')`. -/
def sha256hex (msg : List Nat) : String := bytesToHex (sha256 msg)

end SHA256

namespace StorageManager

/-- UTF-8 encoding of one character, as byte values: the encoding
`Buffer.from(string)` applies per character. -/
def encodeCharUTF8 (c : Char) : List Nat :=
  let v := c.toNat
  if v ≤ 0x7f then [v]
  else if v ≤ 0x7ff then
    [0xc0 ||| (v >>> 6), 0x80 ||| (v &&& 0x3f)]
  else if v ≤ 0xffff then
    [0xe0 ||| (v >>> 12), 0x80 ||| ((v >>> 6) &&& 0x3f), 0x80 ||| (v &&& 0x3f)]
  else
    [0xf0 ||| (v >>> 18), 0x80 ||| ((v >>> 12) &&& 0x3f),
     0x80 ||| ((v >>> 6) &&& 0x3f), 0x80 ||| (v &&& 0x3f)]

/-- The bytes of `Buffer.from(s)`: UTF-8 encoding of the string. -/
def strToBytes (s : String) : List Nat := s.data.flatMap encodeCharUTF8

/-- A `string | Buffer` argument, as the TypeScript union the storage manager
accepts. -/
inductive Content where
  | str (s : String)
  | buf (b : List Nat)
deriving DecidableEq, Repr

/-- `typeof content === 'string' ? Buffer.from(content) : content`. -/
def Content.toBuffer : Content → List Nat
  | .str s => strToBytes s
  | .buf b => b

/-- The `StorageInfo` record of `src/services/package-analyzer/types.ts`. -/
structure StorageInfo where
  bucket : String
  path : String
  filename : String
  contentHash : String
  contentType : String
  size : Nat
deriving DecidableEq, Repr

/-- A stored object in the backend: the saved bytes plus the metadata
`file.save` attaches (content type, content hash, original extension). -/
structure StoredObject where
  data : List Nat
  contentType : String
  contentHash : String
  originalExtension : String
deriving DecidableEq, Repr

/-- Modelled from the spec: the Google Cloud Storage client is external to
the repository; the spec reduces it to an abstract blob backend capability
(put/get/exists/createContainerIfAbsent) over a shared container namespace.
The state is the set of existing buckets and a map from
(bucket name, full object path) to the stored object. -/
structure GCSState where
  buckets : List String
  objects : List ((String × String) × StoredObject)
deriving DecidableEq, Repr

/-- The backend state with no buckets and no objects. -/
def emptyState : GCSState := { buckets := [], objects := [] }

/-- `file.exists()` / `file.download()` lookup: the object stored at
(bucket, full path), if any. -/
def lookupObject (st : GCSState) (key : String × String) : Option StoredObject :=
  (st.objects.find? (fun p => decide (p.1 = key))).map (fun p => p.2)

/-- `file.save`: atomically (re)place the object at the key, as the spec
assumes of the backend's single-object write primitive. -/
def saveObject (st : GCSState) (key : String × String) (obj : StoredObject) :
    GCSState :=
  { st with objects := (key, obj) :: st.objects.filter (fun p => !(decide (p.1 = key))) }

/-- Modelled from the spec: fault injection for the external backend. Each
flag makes the corresponding client call reject instead of completing, so
the error claims are statable; `noFaults` is the healthy backend. -/
structure FaultSpec where
  failBucketExists : Bool
  failBucketCreate : Bool
  failSave : Bool
  failFileExists : Bool
  failDownload : Bool
deriving DecidableEq, Repr

/-- The healthy backend: every client call completes. -/
def noFaults : FaultSpec :=
  { failBucketExists := false, failBucketCreate := false, failSave := false,
    failFileExists := false, failDownload := false }

/-- Modelled from the spec: the error taxonomy the storage manager surfaces.
A rejection of `bucket.exists()` / `bucket.create()` propagates as the
container being unreachable or uncreatable (`backendUnavailable`); a
rejection of `file.save()` as `writeFailed`; `notFound` is the
`Error('File not found: ...')` that `retrieveContent` itself throws. -/
inductive CasError where
  | backendUnavailable
  | writeFailed
  | notFound (msg : String)
deriving DecidableEq, Repr

deriving instance DecidableEq for Except

/-- `DEFAULT_BUCKET_NAME`, from the optional `GOOGLE_CLOUD_PROJECT`
environment variable. -/
def DEFAULT_BUCKET_NAME (googleCloudProject : Option String) : String :=
  match googleCloudProject with
  | some p => p ++ "-cas"
  | none => "agentic-readme-cas"

/-- `generateContentHash`: the SHA-256 hex digest of the content bytes,
`crypto.createHash('sha256')` over `Buffer.from(content)` for strings and
over the buffer itself otherwise. -/
def generateContentHash (content : Content) : String :=
  SHA256.sha256hex content.toBuffer

/-- `storeContent` of `src/services/storage-manager`: hash the payload with
SHA-256, name it `hash.extension` under the fixed `cas` prefix, create the
bucket if absent, save the bytes with their metadata, and return the
`StorageInfo`. The backend state threads through explicitly; the result
state is returned also on failure so that atomicity is statable. -/
def storeContent (content : Content) (extension : String) (contentType : String)
    (bucketName : String) (fs : FaultSpec) (st : GCSState) :
    Except CasError StorageInfo × GCSState :=
  let contentBuffer := content.toBuffer
  let contentHash := generateContentHash (Content.buf contentBuffer)
  let filename := contentHash ++ "." ++ extension
  let path := "cas"
  let fullPath := path ++ "/" ++ filename
  if fs.failBucketExists then
    (Except.error CasError.backendUnavailable, st)
  else if fs.failBucketCreate && !(st.buckets.contains bucketName) then
    (Except.error CasError.backendUnavailable, st)
  else
    let st1 := if st.buckets.contains bucketName then st
               else { st with buckets := bucketName :: st.buckets }
    if fs.failSave then
      (Except.error CasError.writeFailed, st1)
    else
      let st2 := saveObject st1 (bucketName, fullPath)
        { data := contentBuffer, contentType := contentType,
          contentHash := contentHash, originalExtension := extension }
      (Except.ok { bucket := bucketName, path := path, filename := filename,
                   contentHash := contentHash, contentType := contentType,
                   size := contentBuffer.length }, st2)

/-- `retrieveContent`: look up (bucket, path/filename); throw
`Error('File not found: ...')` when the object is absent, otherwise download
and return its bytes. Reads do not change the backend state. -/
def retrieveContent (storageInfo : StorageInfo) (fs : FaultSpec)
    (st : GCSState) : Except CasError (List Nat) :=
  let fullPath := storageInfo.path ++ "/" ++ storageInfo.filename
  if fs.failFileExists then
    Except.error CasError.backendUnavailable
  else
    match lookupObject st (storageInfo.bucket, fullPath) with
    | none => Except.error (CasError.notFound ("File not found: " ++ fullPath))
    | some obj =>
      if fs.failDownload then Except.error CasError.backendUnavailable
      else Except.ok obj.data

/-- `storeReadme`: store as markdown in the default bucket. The
`packageName` and `packageVersion` parameters are accepted and unused,
as in the source. -/
def storeReadme (readme : String) (packageName : String)
    (packageVersion : String) (googleCloudProject : Option String)
    (fs : FaultSpec) (st : GCSState) : Except CasError StorageInfo × GCSState :=
  storeContent (Content.str readme) "md" "text/markdown"
    (DEFAULT_BUCKET_NAME googleCloudProject) fs st

/-- `storeAnalysisResults`. Modelled from the spec: the source serializes
its `results` argument with the external `JSON.stringify(results, null, 2)`
before storing; the model takes that serialized JSON string as the
argument. `packageName` and `packageVersion` are accepted and unused. -/
def storeAnalysisResults (resultsJson : String) (packageName : String)
    (packageVersion : String) (googleCloudProject : Option String)
    (fs : FaultSpec) (st : GCSState) : Except CasError StorageInfo × GCSState :=
  storeContent (Content.str resultsJson) "json" "application/json"
    (DEFAULT_BUCKET_NAME googleCloudProject) fs st

/-- `storeLogOutput`: store as plain-text log in the default bucket.
`packageName` and `packageVersion` are accepted and unused. -/
def storeLogOutput (log : String) (packageName : String)
    (packageVersion : String) (googleCloudProject : Option String)
    (fs : FaultSpec) (st : GCSState) : Except CasError StorageInfo × GCSState :=
  storeContent (Content.str log) "log" "text/plain"
    (DEFAULT_BUCKET_NAME googleCloudProject) fs st

end StorageManager

namespace StorageManager

/-- A successful `storeContent` returns exactly the reference and state the
source constructs: the hash-named file under `cas` in the requested bucket,
saved over the (possibly freshly created) bucket's previous contents. -/
theorem storeContent_ok_spec (c : Content) (ext ct bn : String)
    (fs : FaultSpec) (st : GCSState) (info : StorageInfo) (st' : GCSState)
    (h : storeContent c ext ct bn fs st = (Except.ok info, st')) :
    info = { bucket := bn, path := "cas",
             filename := SHA256.sha256hex c.toBuffer ++ "." ++ ext,
             contentHash := SHA256.sha256hex c.toBuffer,
             contentType := ct, size := c.toBuffer.length } ∧
    st' = saveObject
            (if st.buckets.contains bn then st
             else { st with buckets := bn :: st.buckets })
            (bn, "cas" ++ "/" ++ (SHA256.sha256hex c.toBuffer ++ "." ++ ext))
            { data := c.toBuffer, contentType := ct,
              contentHash := SHA256.sha256hex c.toBuffer,
              originalExtension := ext } := by
  simp only [storeContent] at h
  split at h
  · simp at h
  split at h
  · simp at h
  split at h
  · simp at h
  simp only [Prod.mk.injEq, Except.ok.injEq] at h
  obtain ⟨hi, hs⟩ := h
  constructor
  · simp [← hi, generateContentHash, Content.toBuffer]
  · simp [← hs, generateContentHash, Content.toBuffer]

/-- C2: every reference returned by `storeContent` has
filename = hex(SHA-256(payload bytes)) + "." + extension, the fixed path
prefix `cas`, contentHash = hex(SHA-256(payload bytes)), the caller's
content type, the caller's bucket, and size = the payload's byte length. -/
theorem storeContent_reference_construction (c : Content) (ext ct bn : String)
    (fs : FaultSpec) (st : GCSState) (info : StorageInfo) (st' : GCSState)
    (h : storeContent c ext ct bn fs st = (Except.ok info, st')) :
    info.filename = SHA256.sha256hex c.toBuffer ++ "." ++ ext ∧
    info.path = "cas" ∧
    info.contentHash = SHA256.sha256hex c.toBuffer ∧
    info.contentType = ct ∧
    info.size = c.toBuffer.length ∧
    info.bucket = bn := by
  obtain ⟨hi, _⟩ := storeContent_ok_spec c ext ct bn fs st info st' h
  subst hi
  exact ⟨rfl, rfl, rfl, rfl, rfl, rfl⟩

set_option maxRecDepth 1000000 in
/-- C2 witness: the spec scenario `put("# Hello\n", "text/markdown", "md")`
on an empty backend, with the digest evaluated concretely; in particular the
size is 8. -/
theorem storeContent_reference_construction_witness :
    ({ bucket := "agentic-readme-cas", path := "cas",
       filename := "90f8ec5669cd34183b9b0fdf8b94f5efb4c3672876330f4aa76088c2b4ad17be.md",
       contentHash := "90f8ec5669cd34183b9b0fdf8b94f5efb4c3672876330f4aa76088c2b4ad17be",
       contentType := "text/markdown", size := 8 } : StorageInfo).filename =
        SHA256.sha256hex (Content.str "# Hello\n").toBuffer ++ "." ++ "md" ∧
    ({ bucket := "agentic-readme-cas", path := "cas",
       filename := "90f8ec5669cd34183b9b0fdf8b94f5efb4c3672876330f4aa76088c2b4ad17be.md",
       contentHash := "90f8ec5669cd34183b9b0fdf8b94f5efb4c3672876330f4aa76088c2b4ad17be",
       contentType := "text/markdown", size := 8 } : StorageInfo).path = "cas" ∧
    ({ bucket := "agentic-readme-cas", path := "cas",
       filename := "90f8ec5669cd34183b9b0fdf8b94f5efb4c3672876330f4aa76088c2b4ad17be.md",
       contentHash := "90f8ec5669cd34183b9b0fdf8b94f5efb4c3672876330f4aa76088c2b4ad17be",
       contentType := "text/markdown", size := 8 } : StorageInfo).contentHash =
        SHA256.sha256hex (Content.str "# Hello\n").toBuffer ∧
    ({ bucket := "agentic-readme-cas", path := "cas",
       filename := "90f8ec5669cd34183b9b0fdf8b94f5efb4c3672876330f4aa76088c2b4ad17be.md",
       contentHash := "90f8ec5669cd34183b9b0fdf8b94f5efb4c3672876330f4aa76088c2b4ad17be",
       contentType := "text/markdown", size := 8 } : StorageInfo).contentType =
        "text/markdown" ∧
    ({ bucket := "agentic-readme-cas", path := "cas",
       filename := "90f8ec5669cd34183b9b0fdf8b94f5efb4c3672876330f4aa76088c2b4ad17be.md",
       contentHash := "90f8ec5669cd34183b9b0fdf8b94f5efb4c3672876330f4aa76088c2b4ad17be",
       contentType := "text/markdown", size := 8 } : StorageInfo).size =
        (Content.str "# Hello\n").toBuffer.length ∧
    ({ bucket := "agentic-readme-cas", path := "cas",
       filename := "90f8ec5669cd34183b9b0fdf8b94f5efb4c3672876330f4aa76088c2b4ad17be.md",
       contentHash := "90f8ec5669cd34183b9b0fdf8b94f5efb4c3672876330f4aa76088c2b4ad17be",
       contentType := "text/markdown", size := 8 } : StorageInfo).bucket =
        "agentic-readme-cas" :=
  storeContent_reference_construction (Content.str "# Hello\n") "md"
    "text/markdown" "agentic-readme-cas" noFaults emptyState _
    (storeContent (Content.str "# Hello\n") "md" "text/markdown"
      "agentic-readme-cas" noFaults emptyState).2 (by decide)

/-- C5: the contentHash of every reference returned by `storeContent` equals
the standalone `generateContentHash` of the same payload; both are the same
SHA-256 hex digest, and `generateContentHash` is a pure state-free function
by its type. -/
theorem generateContentHash_agrees_with_storeContent (c : Content)
    (ext ct bn : String) (fs : FaultSpec) (st : GCSState)
    (info : StorageInfo) (st' : GCSState)
    (h : storeContent c ext ct bn fs st = (Except.ok info, st')) :
    info.contentHash = generateContentHash c := by
  obtain ⟨hi, _⟩ := storeContent_ok_spec c ext ct bn fs st info st' h
  subst hi
  simp [generateContentHash]

set_option maxRecDepth 1000000 in
/-- C5 witness: the digest/put agreement at the concrete payload `[1, 2, 3]`. -/
theorem generateContentHash_agrees_with_storeContent_witness :
    ({ bucket := "agentic-readme-cas", path := "cas",
       filename := "039058c6f2c0cb492c533b0a4d14ef77cc0f78abccced5287d84a1a2011cfb81.bin",
       contentHash := "039058c6f2c0cb492c533b0a4d14ef77cc0f78abccced5287d84a1a2011cfb81",
       contentType := "application/octet-stream", size := 3 } : StorageInfo).contentHash =
      generateContentHash (Content.buf [1, 2, 3]) :=
  generateContentHash_agrees_with_storeContent (Content.buf [1, 2, 3]) "bin"
    "application/octet-stream" "agentic-readme-cas" noFaults emptyState _
    (storeContent (Content.buf [1, 2, 3]) "bin" "application/octet-stream"
      "agentic-readme-cas" noFaults emptyState).2 (by decide)

/-- On a healthy backend `storeContent` always succeeds, returning the
hash-derived reference and saving the object over the ensured bucket. -/
theorem storeContent_noFaults_eq (c : Content) (ext ct bn : String)
    (st : GCSState) :
    storeContent c ext ct bn noFaults st =
      (Except.ok { bucket := bn, path := "cas",
                   filename := SHA256.sha256hex c.toBuffer ++ "." ++ ext,
                   contentHash := SHA256.sha256hex c.toBuffer,
                   contentType := ct, size := c.toBuffer.length },
       saveObject
         (if st.buckets.contains bn then st
          else { st with buckets := bn :: st.buckets })
         (bn, "cas" ++ "/" ++ (SHA256.sha256hex c.toBuffer ++ "." ++ ext))
         { data := c.toBuffer, contentType := ct,
           contentHash := SHA256.sha256hex c.toBuffer,
           originalExtension := ext }) := rfl

/-- Looking up the key just saved yields exactly the saved object. -/
theorem lookupObject_saveObject_self (st : GCSState) (key : String × String)
    (obj : StoredObject) :
    lookupObject (saveObject st key obj) key = some obj := by
  unfold lookupObject saveObject
  rw [List.find?_cons_of_pos _ (by simp)]
  rfl

/-- Saving the same object at the same key twice is the same as saving it
once. -/
theorem saveObject_idem (st : GCSState) (key : String × String)
    (obj : StoredObject) :
    saveObject (saveObject st key obj) key obj = saveObject st key obj := by
  simp only [saveObject, List.filter_cons, decide_eq_true_eq, List.filter_filter]
  simp

/-- C1: round-trip. Retrieving with the reference returned by a successful
`storeContent` returns exactly the payload's bytes, with no transformation:
for a string payload, its UTF-8 bytes; for a buffer, the buffer itself. -/
theorem storeContent_retrieveContent_roundtrip (c : Content)
    (ext ct bn : String) (st : GCSState) (info : StorageInfo)
    (st' : GCSState)
    (h : storeContent c ext ct bn noFaults st = (Except.ok info, st')) :
    retrieveContent info noFaults st' = Except.ok c.toBuffer := by
  obtain ⟨hi, hs⟩ := storeContent_ok_spec c ext ct bn noFaults st info st' h
  subst hi
  subst hs
  simp only [retrieveContent, noFaults]
  rw [lookupObject_saveObject_self]
  rfl

set_option maxRecDepth 1000000 in
/-- C1 witness: the empty string stores and retrieves to the empty byte
sequence on an empty backend. -/
theorem storeContent_retrieveContent_roundtrip_witness :
    retrieveContent
      { bucket := "agentic-readme-cas", path := "cas",
        filename := "e3b0c44298fc1c149afbf4c8996fb92427ae41e4649b934ca495991b7852b855.txt",
        contentHash := "e3b0c44298fc1c149afbf4c8996fb92427ae41e4649b934ca495991b7852b855",
        contentType := "text/plain", size := 0 } noFaults
      (storeContent (Content.str "") "txt" "text/plain" "agentic-readme-cas"
        noFaults emptyState).2 =
      Except.ok (Content.str "").toBuffer :=
  storeContent_retrieveContent_roundtrip (Content.str "") "txt" "text/plain"
    "agentic-readme-cas" emptyState _
    (storeContent (Content.str "") "txt" "text/plain" "agentic-readme-cas"
      noFaults emptyState).2 (by decide)

/-- C3: dedup idempotence. A second `storeContent` of the identical payload,
content type and extension returns the identical reference (hence identical
filename, contentHash, size), does not fail, changes nothing in the backend
(both puts resolve to the same location), and the location holds exactly
one stored object. -/
theorem storeContent_dedup_idempotent (c : Content) (ext ct bn : String)
    (st : GCSState) (info : StorageInfo) (st1 : GCSState)
    (h : storeContent c ext ct bn noFaults st = (Except.ok info, st1)) :
    storeContent c ext ct bn noFaults st1 = (Except.ok info, st1) ∧
    (st1.objects.filter
      (fun p => decide (p.1 = (bn, "cas" ++ "/" ++ info.filename)))).length = 1 := by
  obtain ⟨hi, hs⟩ := storeContent_ok_spec c ext ct bn noFaults st info st1 h
  subst hi
  subst hs
  have hb : (saveObject
      (if st.buckets.contains bn then st
       else { st with buckets := bn :: st.buckets })
      (bn, "cas" ++ "/" ++ (SHA256.sha256hex c.toBuffer ++ "." ++ ext))
      { data := c.toBuffer, contentType := ct,
        contentHash := SHA256.sha256hex c.toBuffer,
        originalExtension := ext }).buckets.contains bn = true := by
    show (if st.buckets.contains bn = true then st
          else { st with buckets := bn :: st.buckets }).buckets.contains bn = true
    by_cases hc : st.buckets.contains bn = true
    · rw [if_pos hc]; exact hc
    · rw [if_neg hc]; simp [List.contains_cons]
  constructor
  · rw [storeContent_noFaults_eq]
    rw [if_pos hb]
    rw [saveObject_idem]
  · simp only [saveObject, List.filter_cons, decide_eq_true_eq,
      List.filter_filter]
    simp

set_option maxRecDepth 1000000 in
/-- C3 witness: storing the byte `[7]` twice on an empty backend; the second
call returns the same reference and state, and one copy is stored. -/
theorem storeContent_dedup_idempotent_witness :
    (storeContent (Content.buf [7]) "txt" "text/plain" "b" noFaults
        (storeContent (Content.buf [7]) "txt" "text/plain" "b" noFaults
          emptyState).2 =
      (Except.ok
        { bucket := "b", path := "cas",
          filename := "ca358758f6d27e6cf45272937977a748fd88391db679ceda7dc7bf1f005ee879.txt",
          contentHash := "ca358758f6d27e6cf45272937977a748fd88391db679ceda7dc7bf1f005ee879",
          contentType := "text/plain", size := 1 },
        (storeContent (Content.buf [7]) "txt" "text/plain" "b" noFaults
          emptyState).2)) ∧
    ((storeContent (Content.buf [7]) "txt" "text/plain" "b" noFaults
        emptyState).2.objects.filter
      (fun p => decide (p.1 = ("b", "cas" ++ "/" ++
        "ca358758f6d27e6cf45272937977a748fd88391db679ceda7dc7bf1f005ee879.txt")))).length = 1 := by
  have h := storeContent_dedup_idempotent (Content.buf [7]) "txt" "text/plain"
    "b" emptyState
    { bucket := "b", path := "cas",
      filename := "ca358758f6d27e6cf45272937977a748fd88391db679ceda7dc7bf1f005ee879.txt",
      contentHash := "ca358758f6d27e6cf45272937977a748fd88391db679ceda7dc7bf1f005ee879",
      contentType := "text/plain", size := 1 }
    (storeContent (Content.buf [7]) "txt" "text/plain" "b" noFaults
      emptyState).2 (by decide)
  exact h

/-- C4: extension sensitivity. Two puts of the same payload with extensions
`md` and `json` return references with the same contentHash but different
filenames, and the two writes land at two distinct backend locations. -/
theorem storeContent_extension_sensitivity (c : Content) (ct bn : String)
    (stA stB : GCSState) (i1 i2 : StorageInfo) (s1 s2 : GCSState)
    (h1 : storeContent c "md" ct bn noFaults stA = (Except.ok i1, s1))
    (h2 : storeContent c "json" ct bn noFaults stB = (Except.ok i2, s2)) :
    i1.contentHash = i2.contentHash ∧
    i1.filename ≠ i2.filename ∧
    (i1.bucket, i1.path ++ "/" ++ i1.filename) ≠
      (i2.bucket, i2.path ++ "/" ++ i2.filename) := by
  obtain ⟨hi1, -⟩ := storeContent_ok_spec c "md" ct bn noFaults stA i1 s1 h1
  obtain ⟨hi2, -⟩ := storeContent_ok_spec c "json" ct bn noFaults stB i2 s2 h2
  subst hi1
  subst hi2
  have e2 : ("md" : String).length = 2 := rfl
  have e3 : ("json" : String).length = 4 := rfl
  refine ⟨rfl, ?_, ?_⟩
  · intro heq
    have hlen := congrArg String.length heq
    simp only [String.length_append] at hlen
    omega
  · intro heq
    have hsnd := congrArg Prod.snd heq
    have hlen := congrArg String.length hsnd
    simp only [String.length_append] at hlen
    omega

set_option maxRecDepth 1000000 in
/-- C4 witness: the payload `"x"` stored as `.md` and as `.json` on an empty
backend shares its digest but not its filename or location. -/
theorem storeContent_extension_sensitivity_witness :
    ({ bucket := "b", path := "cas",
       filename := "2d711642b726b04401627ca9fbac32f5c8530fb1903cc4db02258717921a4881.md",
       contentHash := "2d711642b726b04401627ca9fbac32f5c8530fb1903cc4db02258717921a4881",
       contentType := "text/plain", size := 1 } : StorageInfo).contentHash =
      ({ bucket := "b", path := "cas",
         filename := "2d711642b726b04401627ca9fbac32f5c8530fb1903cc4db02258717921a4881.json",
         contentHash := "2d711642b726b04401627ca9fbac32f5c8530fb1903cc4db02258717921a4881",
         contentType := "text/plain", size := 1 } : StorageInfo).contentHash ∧
    ({ bucket := "b", path := "cas",
       filename := "2d711642b726b04401627ca9fbac32f5c8530fb1903cc4db02258717921a4881.md",
       contentHash := "2d711642b726b04401627ca9fbac32f5c8530fb1903cc4db02258717921a4881",
       contentType := "text/plain", size := 1 } : StorageInfo).filename ≠
      ({ bucket := "b", path := "cas",
         filename := "2d711642b726b04401627ca9fbac32f5c8530fb1903cc4db02258717921a4881.json",
         contentHash := "2d711642b726b04401627ca9fbac32f5c8530fb1903cc4db02258717921a4881",
         contentType := "text/plain", size := 1 } : StorageInfo).filename ∧
    (({ bucket := "b", path := "cas",
        filename := "2d711642b726b04401627ca9fbac32f5c8530fb1903cc4db02258717921a4881.md",
        contentHash := "2d711642b726b04401627ca9fbac32f5c8530fb1903cc4db02258717921a4881",
        contentType := "text/plain", size := 1 } : StorageInfo).bucket,
      ({ bucket := "b", path := "cas",
         filename := "2d711642b726b04401627ca9fbac32f5c8530fb1903cc4db02258717921a4881.md",
         contentHash := "2d711642b726b04401627ca9fbac32f5c8530fb1903cc4db02258717921a4881",
         contentType := "text/plain", size := 1 } : StorageInfo).path ++ "/" ++
      ({ bucket := "b", path := "cas",
         filename := "2d711642b726b04401627ca9fbac32f5c8530fb1903cc4db02258717921a4881.md",
         contentHash := "2d711642b726b04401627ca9fbac32f5c8530fb1903cc4db02258717921a4881",
         contentType := "text/plain", size := 1 } : StorageInfo).filename) ≠
      (({ bucket := "b", path := "cas",
          filename := "2d711642b726b04401627ca9fbac32f5c8530fb1903cc4db02258717921a4881.json",
          contentHash := "2d711642b726b04401627ca9fbac32f5c8530fb1903cc4db02258717921a4881",
          contentType := "text/plain", size := 1 } : StorageInfo).bucket,
        ({ bucket := "b", path := "cas",
           filename := "2d711642b726b04401627ca9fbac32f5c8530fb1903cc4db02258717921a4881.json",
           contentHash := "2d711642b726b04401627ca9fbac32f5c8530fb1903cc4db02258717921a4881",
           contentType := "text/plain", size := 1 } : StorageInfo).path ++ "/" ++
        ({ bucket := "b", path := "cas",
           filename := "2d711642b726b04401627ca9fbac32f5c8530fb1903cc4db02258717921a4881.json",
           contentHash := "2d711642b726b04401627ca9fbac32f5c8530fb1903cc4db02258717921a4881",
           contentType := "text/plain", size := 1 } : StorageInfo).filename) :=
  storeContent_extension_sensitivity (Content.str "x") "text/plain" "b"
    emptyState emptyState _ _
    (storeContent (Content.str "x") "md" "text/plain" "b" noFaults emptyState).2
    (storeContent (Content.str "x") "json" "text/plain" "b" noFaults emptyState).2
    (by decide) (by decide)

/-- C6: missing object. On a healthy backend, retrieval of a reference whose
derived location holds no object fails with exactly the code's
`File not found` error, and retrieval returns bytes exactly when an object
is stored at the derived location. -/
theorem retrieveContent_missing_notFound (si : StorageInfo) (st : GCSState) :
    (lookupObject st (si.bucket, si.path ++ "/" ++ si.filename) = none →
      retrieveContent si noFaults st =
        Except.error (CasError.notFound
          ("File not found: " ++ (si.path ++ "/" ++ si.filename)))) ∧
    (∀ b : List Nat, retrieveContent si noFaults st = Except.ok b ↔
      ∃ obj, lookupObject st (si.bucket, si.path ++ "/" ++ si.filename) =
        some obj ∧ obj.data = b) := by
  constructor
  · intro h
    simp only [retrieveContent, noFaults]
    rw [h]
    rfl
  · intro b
    simp only [retrieveContent, noFaults]
    cases hl : lookupObject st (si.bucket, si.path ++ "/" ++ si.filename) with
    | none => simp [hl]
    | some obj => simp [hl]

/-- C6 witness: a well-formed but never-written reference on the empty
backend fails with the `File not found` error at its derived path. -/
theorem retrieveContent_missing_notFound_witness :
    retrieveContent
      { bucket := "b", path := "cas", filename := "nope.md",
        contentHash := "nope", contentType := "text/markdown", size := 0 }
      noFaults emptyState =
      Except.error (CasError.notFound ("File not found: " ++ ("cas" ++ "/" ++ "nope.md"))) :=
  (retrieveContent_missing_notFound
    { bucket := "b", path := "cas", filename := "nope.md",
      contentHash := "nope", contentType := "text/markdown", size := 0 }
    emptyState).1 rfl

/-- C7: put atomicity. Whenever `storeContent` fails, the backend's object
map is exactly what it was before the call, and every retrieval observes
the same result as if the put had never started. (The spec assumes the
backend's single-object write is atomic; the only durable trace a failed
put can leave is an empty created bucket, which no retrieval observes.) -/
theorem storeContent_error_atomic (c : Content) (ext ct bn : String)
    (fs : FaultSpec) (st : GCSState) (e : CasError) (st' : GCSState)
    (h : storeContent c ext ct bn fs st = (Except.error e, st')) :
    st'.objects = st.objects ∧
    ∀ (si : StorageInfo) (fs2 : FaultSpec),
      retrieveContent si fs2 st' = retrieveContent si fs2 st := by
  have hobj : st'.objects = st.objects := by
    simp only [storeContent] at h
    split at h
    · simp only [Prod.mk.injEq] at h
      rw [← h.2]
    split at h
    · simp only [Prod.mk.injEq] at h
      rw [← h.2]
    split at h
    · simp only [Prod.mk.injEq] at h
      rw [← h.2]
      split <;> rfl
    · simp at h
  refine ⟨hobj, fun si fs2 => ?_⟩
  simp only [retrieveContent, lookupObject, hobj]

set_option maxRecDepth 1000000 in
/-- C7 witness: a put whose backend write fails on the empty backend leaves
the object map empty, and a retrieval of the would-be reference still
reports `File not found`. -/
theorem storeContent_error_atomic_witness :
    ({ buckets := ["b"], objects := [] } : GCSState).objects =
      emptyState.objects ∧
    retrieveContent
      { bucket := "b", path := "cas", filename := "nope.md",
        contentHash := "nope", contentType := "text/markdown", size := 0 }
      noFaults { buckets := ["b"], objects := [] } =
      retrieveContent
        { bucket := "b", path := "cas", filename := "nope.md",
          contentHash := "nope", contentType := "text/markdown", size := 0 }
        noFaults emptyState := by
  have h := storeContent_error_atomic (Content.buf [1]) "md" "text/markdown"
    "b" { failBucketExists := false, failBucketCreate := false,
          failSave := true, failFileExists := false, failDownload := false }
    emptyState CasError.writeFailed { buckets := ["b"], objects := [] }
    (by decide)
  exact ⟨h.1, h.2
    { bucket := "b", path := "cas", filename := "nope.md",
      contentHash := "nope", contentType := "text/markdown", size := 0 }
    noFaults⟩

/-- C8: put error taxonomy. A failing bucket existence check or bucket
creation surfaces as `backendUnavailable`; a failing backend write surfaces
as the distinct kind `writeFailed`; and an object already stored at the
derived location never makes the put fail — that is the successful dedup
path. -/
theorem storeContent_error_taxonomy (c : Content) (ext ct bn : String)
    (st : GCSState) (fs : FaultSpec) :
    (fs.failBucketExists = true →
      (storeContent c ext ct bn fs st).1 =
        Except.error CasError.backendUnavailable) ∧
    (fs.failBucketExists = false → fs.failBucketCreate = true →
      st.buckets.contains bn = false →
      (storeContent c ext ct bn fs st).1 =
        Except.error CasError.backendUnavailable) ∧
    (fs.failBucketExists = false →
      (fs.failBucketCreate = false ∨ st.buckets.contains bn = true) →
      fs.failSave = true →
      (storeContent c ext ct bn fs st).1 = Except.error CasError.writeFailed) ∧
    (∀ obj, lookupObject st
        (bn, "cas" ++ "/" ++ (SHA256.sha256hex c.toBuffer ++ "." ++ ext)) =
          some obj →
      (storeContent c ext ct bn noFaults st).1 =
        Except.ok { bucket := bn, path := "cas",
                    filename := SHA256.sha256hex c.toBuffer ++ "." ++ ext,
                    contentHash := SHA256.sha256hex c.toBuffer,
                    contentType := ct, size := c.toBuffer.length }) := by
  refine ⟨?_, ?_, ?_, ?_⟩
  · intro h1
    simp [storeContent, h1]
  · intro h1 h2 h3
    have h3m : bn ∉ st.buckets := by simpa using h3
    simp [storeContent, h1, h2, h3m]
  · intro h1 h2 h3
    rcases h2 with h2 | h2
    · simp [storeContent, h1, h2, h3]
    · have h2m : bn ∈ st.buckets := by simpa using h2
      simp [storeContent, h1, h3, h2m]
  · intro obj hobj
    rw [storeContent_noFaults_eq]

/-- C8 witness: on the empty backend, a failing existence check and a
failing write surface as the two distinct error kinds, and a put whose
location is already occupied succeeds. -/
theorem storeContent_error_taxonomy_witness :
    (storeContent (Content.buf [7]) "txt" "text/plain" "b"
      { failBucketExists := true, failBucketCreate := false,
        failSave := false, failFileExists := false, failDownload := false }
      emptyState).1 = Except.error CasError.backendUnavailable ∧
    (storeContent (Content.buf [7]) "txt" "text/plain" "b"
      { failBucketExists := false, failBucketCreate := true,
        failSave := false, failFileExists := false, failDownload := false }
      emptyState).1 = Except.error CasError.backendUnavailable ∧
    (storeContent (Content.buf [7]) "txt" "text/plain" "b"
      { failBucketExists := false, failBucketCreate := false,
        failSave := true, failFileExists := false, failDownload := false }
      emptyState).1 = Except.error CasError.writeFailed ∧
    (storeContent (Content.buf [7]) "txt" "text/plain" "b" noFaults
      (storeContent (Content.buf [7]) "txt" "text/plain" "b" noFaults
        emptyState).2).1 =
      Except.ok { bucket := "b", path := "cas",
                  filename := SHA256.sha256hex (Content.buf [7]).toBuffer ++ "." ++ "txt",
                  contentHash := SHA256.sha256hex (Content.buf [7]).toBuffer,
                  contentType := "text/plain",
                  size := (Content.buf [7]).toBuffer.length } := by
  have hA := storeContent_error_taxonomy (Content.buf [7]) "txt" "text/plain"
    "b" emptyState
    { failBucketExists := true, failBucketCreate := false, failSave := false,
      failFileExists := false, failDownload := false }
  have hB := storeContent_error_taxonomy (Content.buf [7]) "txt" "text/plain"
    "b" emptyState
    { failBucketExists := false, failBucketCreate := true, failSave := false,
      failFileExists := false, failDownload := false }
  have hC := storeContent_error_taxonomy (Content.buf [7]) "txt" "text/plain"
    "b" emptyState
    { failBucketExists := false, failBucketCreate := false, failSave := true,
      failFileExists := false, failDownload := false }
  have hD := storeContent_error_taxonomy (Content.buf [7]) "txt" "text/plain"
    "b" (storeContent (Content.buf [7]) "txt" "text/plain" "b" noFaults
      emptyState).2 noFaults
  refine ⟨hA.1 rfl, hB.2.1 rfl rfl rfl, hC.2.2.1 rfl (Or.inl rfl) rfl, ?_⟩
  exact hD.2.2.2
    { data := [7], contentType := "text/plain",
      contentHash := SHA256.sha256hex [7], originalExtension := "txt" }
    (by rw [storeContent_noFaults_eq]; exact lookupObject_saveObject_self _ _ _)

/-- C10: `storeReadme`, `storeAnalysisResults` and `storeLogOutput` never
use their packageName/packageVersion arguments: for identical content the
returned reference and resulting backend state are identical under
arbitrarily different package names and versions. -/
theorem store_wrappers_ignore_package_identity (content : String)
    (pn1 pv1 pn2 pv2 : String) (gcp : Option String) (fs : FaultSpec)
    (st : GCSState) :
    storeReadme content pn1 pv1 gcp fs st =
      storeReadme content pn2 pv2 gcp fs st ∧
    storeAnalysisResults content pn1 pv1 gcp fs st =
      storeAnalysisResults content pn2 pv2 gcp fs st ∧
    storeLogOutput content pn1 pv1 gcp fs st =
      storeLogOutput content pn2 pv2 gcp fs st :=
  ⟨rfl, rfl, rfl⟩

end StorageManager
